import Mathlib

/-!
# Verification of the TouchDistanceTracker class

Shallow embedding of `src/unnamed/part_000` (the `TouchDistanceTracker`
class). JS numbers are modelled as real numbers; `NaN` is modelled by
`none` of `Option ℝ` where it can arise (`parseFloat` of a malformed
string, and the running total it is assigned to). `localStorage` is an
association list from string keys to stored string values; a stored
string is classified by the constructor that produced it (`StoreVal`).
A thrown JS exception (from `JSON.parse` on a malformed log value) is
modelled with `Except Unit`.
-/

namespace TouchTracker

/-- A recorded pointer location, `{x, y}` in the source. -/
structure Point where
  x : ℝ
  y : ℝ

/-- A segment between two consecutive points with its precomputed
distance in millimeters, `{x1, y1, x2, y2, distance}` in the source. -/
structure Line where
  x1 : ℝ
  y1 : ℝ
  x2 : ℝ
  y2 : ℝ
  distance : ℝ

/-- A persisted touch-log entry, `{x, y, time_millis}` in the source. -/
structure TouchData where
  x : ℝ
  y : ℝ
  time_millis : ℝ

/-- The two operating modes of the tracker. -/
inductive Mode where
  | production
  | visualization
deriving DecidableEq

/-- An observer. The source stores an object with up to three optional
callback functions; only their presence matters for which calls are
made, so each is modelled by a `Bool` presence flag. -/
structure Observer where
  onPointsUpdated : Bool
  onLinesUpdated : Bool
  onTotalDistanceUpdated : Bool

/-- `{storageKey, touchLogKey}` as held in `this.storageConfig`. -/
structure StorageConfig where
  storageKey : String
  touchLogKey : String

/-- Classification of a string value held in `localStorage`:
`emptyStr` is the empty string `""`; `numStr x` is `x.toString()` of a
JS number (`none` is `NaN`, whose string form `"NaN"` parses back to
`NaN`); `jsonLog l` is `JSON.stringify` of an array of touch-log
entries; `garbage` is any other non-empty string: one that is not a
JSON value and has no leading numeric prefix, so `parseFloat` yields
`NaN` on it and `JSON.parse` throws on it. -/
inductive StoreVal where
  | emptyStr
  | numStr (x : Option ℝ)
  | jsonLog (l : List TouchData)
  | garbage

/-- The `localStorage` collaborator: an association list of entries. -/
def Store : Type := List (String × StoreVal)

/-- `localStorage.getItem`: the value of the first entry with the given
key, or `none` when the key is absent. -/
def getItem : Store → String → Option StoreVal
  | [], _ => none
  | (k', v) :: rest, k => if k' = k then some v else getItem rest k

/-- `localStorage.setItem`: overwrite the value under a key. -/
def setItem (st : Store) (k : String) (v : StoreVal) : Store :=
  (k, v) :: List.filter (fun p => p.1 ≠ k) st

/-- `localStorage.removeItem`. -/
def removeItem (st : Store) (k : String) : Store :=
  List.filter (fun p => p.1 ≠ k) st

/-- JS truthiness of a `localStorage.getItem` result: `null` and the
empty string are falsy, every other string is truthy. -/
def truthy : Option StoreVal → Bool
  | none => false
  | some .emptyStr => false
  | some _ => true

/-- JS `parseFloat` on a stored string, `none` modelling `NaN`:
a stringified number parses back to itself (`"NaN"` included), the
empty string, a JSON array text and a garbage string have no numeric
prefix and give `NaN`. -/
def parseFloat : StoreVal → Option ℝ
  | .numStr x => x
  | _ => none

/-- `JSON.parse` of a stored string followed by its use as an array of
log entries: succeeds exactly on a stringified log array. On any other
string the call throws (`JSON.parse` itself throws on `""` and on
`garbage`; a stringified number parses to a non-array value whose use
as an array then throws), modelled as `Except.error`. -/
def jsParseArr : StoreVal → Except Unit (List TouchData)
  | .jsonLog l => .ok l
  | _ => .error ()

/-- In-memory state of a `TouchDistanceTracker` instance: its fields
in source order. -/
structure TrackerState where
  mode : Mode
  lastTouchPosition : Option Point
  dpi : ℝ
  totalDistance : Option ℝ
  points : List Point
  lines : List Line
  observers : List Observer
  storageConfig : StorageConfig

/-- Constructor configuration
`{mode?, dpi?, storageConfig?: {storageKey?, touchLogKey?}}`, with the
nested optional record flattened. -/
structure Config where
  mode : Option Mode
  dpi : Option ℝ
  storageKey : Option String
  touchLogKey : Option String

/-- `String(index)`: decimal digit characters of a natural number,
most significant first. The source recursion on `n / 10` is driven by
a fuel argument (`n + 1` suffices, see `beVal_decDigits`). -/
def decDigits : ℕ → ℕ → List Char
  | 0, _ => []
  | fuel + 1, n =>
    if n < 10 then [Char.ofNat (48 + n)]
    else decDigits fuel (n / 10) ++ [Char.ofNat (48 + n % 10)]

/-- `String(n)` for a natural number `n`. -/
def natToDec (n : ℕ) : String :=
  String.mk (decDigits (n + 1) n)

/-- `s.padStart(2, "0")`: prepend `"0"` until the length is 2. -/
def padStart2 (s : String) : String :=
  if s.length < 2 then "0" ++ s else s

/-- The probed key for index `i`:
`totalDistance-${String(i).padStart(2, "0")}`. -/
def keyForIndex (i : ℕ) : String :=
  "totalDistance-" ++ padStart2 (natToDec i)

/-- The `while (localStorage.getItem(...))` loop of
`generateDefaultStorageKey`, with explicit fuel: starting at index `i`,
advance past indices whose key holds a truthy value. -/
def probe (st : Store) : ℕ → ℕ → ℕ
  | 0, i => i
  | fuel + 1, i =>
    if truthy (getItem st (keyForIndex i)) = true then probe st fuel (i + 1)
    else i

/-- `generateDefaultStorageKey()`: first key `totalDistance-NN`, `NN`
counting from `01`, whose stored value is absent or falsy. Fuel
`st.length + 1` is enough for the source's unbounded loop (see
`gen_key_not_truthy`). -/
def generateDefaultStorageKey (st : Store) : String :=
  keyForIndex (probe st (st.length + 1) 1)

/-- The `new TouchDistanceTracker(config)` constructor: defaults for
mode and dpi (JS `||`, so a supplied `0` dpi or empty-string key is
replaced by the default), key generation, and `loadTotalDistance`. -/
noncomputable def construct (cfg : Config) (st : Store) : TrackerState :=
  let defaultKey := generateDefaultStorageKey st
  let sk := match cfg.storageKey with
    | some k => if k = "" then defaultKey else k
    | none => defaultKey
  let lk := match cfg.touchLogKey with
    | some k => if k = "" then defaultKey ++ "-touch-log" else k
    | none => defaultKey ++ "-touch-log"
  let dpiVal : ℝ := match cfg.dpi with
    | some d => if d = 0 then 96 else d
    | none => 96
  let sc : StorageConfig := ⟨sk, lk⟩
  { mode := cfg.mode.getD .production
    lastTouchPosition := none
    dpi := dpiVal
    totalDistance :=
      match getItem st sc.storageKey with
      | none => some 0
      | some .emptyStr => some 0
      | some v => parseFloat v
    points := []
    lines := []
    observers := []
    storageConfig := sc }

/-- `saveTotalDistance()`: store `totalDistance.toString()` under the
storage key when that key is truthy. -/
def saveTotalDistance (sc : StorageConfig) (total : Option ℝ) (st : Store) : Store :=
  if sc.storageKey = "" then st else setItem st sc.storageKey (.numStr total)

/-- `loadTotalDistance()`: when the storage key is truthy and the
stored value is truthy, assign `parseFloat` of it (possibly `NaN`);
otherwise keep the current total. -/
def loadTotalDistance (sc : StorageConfig) (st : Store) (current : Option ℝ) : Option ℝ :=
  if sc.storageKey = "" then current
  else
    match getItem st sc.storageKey with
    | none => current
    | some .emptyStr => current
    | some v => parseFloat v

/-- `saveTouchLog(touchData)`: read the existing log (absent or falsy
means empty), parse it, append the entry, write it back. A parse
failure throws out of the enclosing `handleTouch`. -/
def saveTouchLog (sc : StorageConfig) (td : TouchData) (st : Store) :
    Except Unit Store :=
  if sc.touchLogKey = "" then .ok st
  else
    match getItem st sc.touchLogKey with
    | none => .ok (setItem st sc.touchLogKey (.jsonLog [td]))
    | some .emptyStr => .ok (setItem st sc.touchLogKey (.jsonLog [td]))
    | some v =>
      match jsParseArr v with
      | .error e => .error e
      | .ok l => .ok (setItem st sc.touchLogKey (.jsonLog (l ++ [td])))

/-- `getTouchLog()`: parse the stored log, empty when absent or falsy;
a malformed stored value makes `JSON.parse` throw. -/
def getTouchLog (sc : StorageConfig) (st : Store) : Except Unit (List TouchData) :=
  if sc.touchLogKey = "" then .ok []
  else
    match getItem st sc.touchLogKey with
    | none => .ok []
    | some .emptyStr => .ok []
    | some v => jsParseArr v

/-- `calculateDistance(x1, y1, x2, y2)`:
`Math.sqrt(Math.pow(x2 - x1, 2) + Math.pow(y2 - y1, 2))`. -/
noncomputable def calculateDistance (x1 y1 x2 y2 : ℝ) : ℝ :=
  Real.sqrt ((x2 - x1) ^ 2 + (y2 - y1) ^ 2)

/-- `convertToMM(distanceInPixels)`: multiply by `25.4 / dpi`. -/
noncomputable def convertToMM (dpi distanceInPixels : ℝ) : ℝ :=
  distanceInPixels * (25.4 / dpi)

/-- An observer notification: points, lines or total callback together
with the snapshot it receives. -/
inductive Callback where
  | pointsUpdated (points : List Point)
  | linesUpdated (lines : List Line)
  | totalDistanceUpdated (total : Option ℝ)

/-- The kind of a callback, without its payload. -/
inductive CKind where
  | points
  | lines
  | total
deriving DecidableEq

/-- Kind of a notification. -/
def kindOf : Callback → CKind
  | .pointsUpdated _ => .points
  | .linesUpdated _ => .lines
  | .totalDistanceUpdated _ => .total

/-- The calls `notifyObservers` makes on one observer, in source
order: points, then lines, then total, each only when present. -/
def presentCalls (o : Observer) (s : TrackerState) : List Callback :=
  (if o.onPointsUpdated then [Callback.pointsUpdated s.points] else []) ++
  (if o.onLinesUpdated then [Callback.linesUpdated s.lines] else []) ++
  (if o.onTotalDistanceUpdated then [Callback.totalDistanceUpdated s.totalDistance] else [])

/-- The ordered kinds of callbacks an observer exposes. -/
def kindsOf (o : Observer) : List CKind :=
  (if o.onPointsUpdated then [CKind.points] else []) ++
  (if o.onLinesUpdated then [CKind.lines] else []) ++
  (if o.onTotalDistanceUpdated then [CKind.total] else [])

/-- Notifications addressed to one observer, tagged with its position
in the registration list. -/
def emit (i : ℕ) (o : Observer) (s : TrackerState) : List (ℕ × Callback) :=
  (presentCalls o s).map (fun c => (i, c))

/-- The `observers.forEach` traversal of `notifyObservers`, carrying
the registration index. -/
def notifyAux (s : TrackerState) : ℕ → List Observer → List (ℕ × Callback)
  | _, [] => []
  | i, o :: rest => emit i o s ++ notifyAux s (i + 1) rest

/-- `notifyObservers()`: in visualization mode, call the present
callbacks of each registered observer in registration order; in
production mode, call nothing. -/
def notifyObservers (s : TrackerState) : List (ℕ × Callback) :=
  match s.mode with
  | .visualization => notifyAux s 0 s.observers
  | .production => []

/-- The pointer event: only `clientX` and `clientY` are read. -/
structure TouchEvent where
  clientX : ℝ
  clientY : ℝ

/-- `handleTouch(event)` at wall-clock time `now` (`Date.now()`):
persist the log entry (a malformed existing log makes this throw with
no state change, since the throw precedes every mutation); when a last
position exists, accumulate the millimeter distance, record the line
and persist the total; append the point, update the last position and
notify. Returns the new state, the new store and the notifications
made. -/
noncomputable def handleTouch (e : TouchEvent) (now : ℝ) (s : TrackerState)
    (st : Store) : Except Unit (TrackerState × Store × List (ℕ × Callback)) :=
  let x := e.clientX
  let y := e.clientY
  let newPoint : Point := ⟨x, y⟩
  match saveTouchLog s.storageConfig ⟨x, y, now⟩ st with
  | .error err => .error err
  | .ok st1 =>
    match s.lastTouchPosition with
    | some last =>
      let distanceInPixels := calculateDistance last.x last.y x y
      let distanceInMM := convertToMM s.dpi distanceInPixels
      let total := s.totalDistance.map (· + distanceInMM)
      let newLine : Line := ⟨last.x, last.y, x, y, distanceInMM⟩
      let st2 := saveTotalDistance s.storageConfig total st1
      let s' := { s with
        totalDistance := total
        lines := s.lines ++ [newLine]
        points := s.points ++ [newPoint]
        lastTouchPosition := some newPoint }
      .ok (s', st2, notifyObservers s')
    | none =>
      let s' := { s with
        points := s.points ++ [newPoint]
        lastTouchPosition := some newPoint }
      .ok (s', st1, notifyObservers s')

/-- `reset()`: clear the in-memory state, persist the zeroed total,
remove the persisted log, notify. -/
noncomputable def reset (s : TrackerState) (st : Store) :
    TrackerState × Store × List (ℕ × Callback) :=
  let s' := { s with
    lastTouchPosition := none
    totalDistance := some (0 : ℝ)
    points := []
    lines := [] }
  let st1 := saveTotalDistance s'.storageConfig s'.totalDistance st
  let st2 := if s'.storageConfig.touchLogKey = "" then st1
    else removeItem st1 s'.storageConfig.touchLogKey
  (s', st2, notifyObservers s')

/-- `getTotalDistance()`. -/
def getTotalDistance (s : TrackerState) : Option ℝ := s.totalDistance

/-- `getPoints()` (the defensive copy is the identity here). -/
def getPoints (s : TrackerState) : List Point := s.points

/-- `getLines()`. -/
def getLines (s : TrackerState) : List Line := s.lines

/-- The in-memory state the class fields are initialized to, before
the constructor body runs: no last position, zero total, empty points
and lines. -/
def freshState (mode : Mode) (dpi : ℝ) (observers : List Observer)
    (sc : StorageConfig) : TrackerState :=
  { mode := mode
    lastTouchPosition := none
    dpi := dpi
    totalDistance := some 0
    points := []
    lines := []
    observers := observers
    storageConfig := sc }

/-- One external call on a live tracker. -/
inductive Op where
  | touch (e : TouchEvent) (now : ℝ)
  | reset

/-- Apply one call. A `handleTouch` that throws leaves the tracker and
the store unchanged: the throw happens inside `saveTouchLog`, before
any field or store mutation. -/
noncomputable def step (s : TrackerState) (st : Store) : Op → TrackerState × Store
  | .touch e now =>
    match handleTouch e now s st with
    | .ok (s', st', _) => (s', st')
    | .error _ => (s, st)
  | .reset =>
    let r := reset s st
    (r.1, r.2.1)

/-- Run a sequence of calls. -/
noncomputable def run : List Op → TrackerState × Store → TrackerState × Store
  | [], p => p
  | op :: ops, p => run ops (step p.1 p.2 op)

/-! ## Decimal keys: decoding and injectivity -/

/-- Big-endian numeric value of a digit string; a left inverse for the
decimal printing used in generated storage keys. -/
def beVal (l : List Char) : ℕ :=
  l.foldl (fun acc c => 10 * acc + (c.toNat - 48)) 0

theorem beVal_cons_zero (l : List Char) : beVal ('0' :: l) = beVal l := rfl

theorem beVal_append_singleton (l : List Char) (c : Char) :
    beVal (l ++ [c]) = 10 * beVal l + (c.toNat - 48) := by
  simp [beVal, List.foldl_append]

theorem digit_roundtrip {n : ℕ} (h : n < 10) :
    (Char.ofNat (48 + n)).toNat - 48 = n := by
  interval_cases n <;> rfl

theorem beVal_decDigits : ∀ fuel n, n < 10 ^ fuel → beVal (decDigits fuel n) = n := by
  intro fuel
  induction fuel with
  | zero =>
    intro n hn
    interval_cases n
    rfl
  | succ f ih =>
    intro n hn
    by_cases h10 : n < 10
    · simp only [decDigits, if_pos h10]
      show 10 * 0 + ((Char.ofNat (48 + n)).toNat - 48) = n
      rw [digit_roundtrip h10]
      omega
    · simp only [decDigits, if_neg h10]
      rw [beVal_append_singleton, digit_roundtrip (Nat.mod_lt n (by norm_num)),
        ih (n / 10) ?_]
      · omega
      · rw [Nat.div_lt_iff_lt_mul (by norm_num)]
        calc n < 10 ^ (f + 1) := hn
        _ = 10 ^ f * 10 := by ring

theorem beVal_natToDec (n : ℕ) : beVal (natToDec n).data = n := by
  have h : n < 10 ^ (n + 1) := by
    calc n < 10 ^ n := Nat.lt_pow_self (by norm_num) n
    _ ≤ 10 ^ (n + 1) := Nat.pow_le_pow_right (by norm_num) (Nat.le_succ n)
  exact beVal_decDigits (n + 1) n h

theorem data_append (s t : String) : (s ++ t).data = s.data ++ t.data := rfl

theorem beVal_padStart2 (s : String) : beVal (padStart2 s).data = beVal s.data := by
  unfold padStart2
  split
  · rw [data_append]
    show beVal ('0' :: s.data) = beVal s.data
    exact beVal_cons_zero s.data
  · rfl

theorem decode_keyForIndex (i : ℕ) : beVal ((keyForIndex i).data.drop 14) = i := by
  unfold keyForIndex
  rw [data_append,
    List.drop_left' (show ("totalDistance-".data).length = 14 from rfl),
    beVal_padStart2, beVal_natToDec]

theorem keyForIndex_inj : Function.Injective keyForIndex := by
  intro i j h
  have := congrArg (fun s => beVal (s.data.drop 14)) h
  simpa [decode_keyForIndex] using this

/-! ## The key-probing loop -/

theorem truthy_getItem_mem {st : Store} {k : String}
    (h : truthy (getItem st k) = true) : k ∈ st.map Prod.fst := by
  induction st with
  | nil => simp [getItem, truthy] at h
  | cons p rest ih =>
    obtain ⟨k', v⟩ := p
    by_cases hk : k' = k
    · subst hk
      simp
    · simp only [getItem, if_neg hk] at h
      simpa using Or.inr (ih h)

theorem exists_unused (st : Store) :
    ∃ j, 1 ≤ j ∧ j < 1 + (st.length + 1) ∧
      truthy (getItem st (keyForIndex j)) = false := by
  by_contra hcon
  push_neg at hcon
  have hall : ∀ j, 1 ≤ j → j < st.length + 2 →
      truthy (getItem st (keyForIndex j)) = true := by
    intro j h1 h2
    have := hcon j h1 (by omega)
    revert this
    cases truthy (getItem st (keyForIndex j)) <;> simp
  have hmap : ∀ a ∈ Finset.range (st.length + 1),
      keyForIndex (a + 1) ∈ (st.map Prod.fst).toFinset := by
    intro a ha
    rw [List.mem_toFinset]
    exact truthy_getItem_mem (hall (a + 1) (by omega)
      (by simp at ha; omega))
  have hinj : Set.InjOn (fun a => keyForIndex (a + 1))
      (Finset.range (st.length + 1)) := by
    intro a _ b _ hab
    have := keyForIndex_inj hab
    omega
  have hcard := Finset.card_le_card_of_injOn _ hmap hinj
  rw [Finset.card_range] at hcard
  have hle : (st.map Prod.fst).toFinset.card ≤ st.length := by
    calc (st.map Prod.fst).toFinset.card ≤ (st.map Prod.fst).length :=
      (st.map Prod.fst).toFinset_card_le
    _ = st.length := List.length_map _ _
  omega

theorem probe_ge (st : Store) : ∀ fuel i, i ≤ probe st fuel i := by
  intro fuel
  induction fuel with
  | zero => intro i; exact Nat.le_refl i
  | succ f ih =>
    intro i
    unfold probe
    split
    · exact Nat.le_trans (Nat.le_succ i) (ih (i + 1))
    · exact Nat.le_refl i

theorem probe_min (st : Store) : ∀ fuel i j, i ≤ j → j < probe st fuel i →
    truthy (getItem st (keyForIndex j)) = true := by
  intro fuel
  induction fuel with
  | zero =>
    intro i j hij hlt
    simp only [probe] at hlt
    omega
  | succ f ih =>
    intro i j hij hlt
    unfold probe at hlt
    split at hlt
    · rcases Nat.eq_or_lt_of_le hij with heq | hgt
      · subst heq; assumption
      · exact ih (i + 1) j hgt hlt
    · omega

theorem probe_found (st : Store) : ∀ fuel i,
    (∃ j, i ≤ j ∧ j < i + fuel ∧ truthy (getItem st (keyForIndex j)) = false) →
    truthy (getItem st (keyForIndex (probe st fuel i))) = false := by
  intro fuel
  induction fuel with
  | zero =>
    intro i ⟨j, h1, h2, _⟩
    omega
  | succ f ih =>
    intro i ⟨j, h1, h2, h3⟩
    unfold probe
    split
    · refine ih (i + 1) ⟨j, ?_, by omega, h3⟩
      rcases Nat.eq_or_lt_of_le h1 with heq | hgt
      · subst heq
        rename_i htr
        rw [htr] at h3
        cases h3
      · exact hgt
    · rename_i htr
      revert htr
      cases truthy (getItem st (keyForIndex i)) <;> simp

theorem gen_key_not_truthy (st : Store) :
    truthy (getItem st (generateDefaultStorageKey st)) = false := by
  unfold generateDefaultStorageKey
  exact probe_found st (st.length + 1) 1 (by simpa using exists_unused st)

/-! ## Notification structure -/

theorem emit_filter (j i : ℕ) (o : Observer) (s : TrackerState) :
    (emit j o s).filter (fun p => p.1 == i) = if j = i then emit j o s else [] := by
  unfold emit
  rw [List.filter_map]
  by_cases h : j = i
  · subst h
    simp [Function.comp_def]
  · simp [Function.comp_def, h]

theorem map_kindOf_emit (i : ℕ) (o : Observer) (s : TrackerState) :
    (emit i o s).map (fun p => kindOf p.2) = kindsOf o := by
  rcases o with ⟨p, l, t⟩
  cases p <;> cases l <;> cases t <;> rfl

theorem notifyAux_mem_ge (s : TrackerState) :
    ∀ obs n p, p ∈ notifyAux s n obs → n ≤ p.1 := by
  intro obs
  induction obs with
  | nil => intro n p hp; simp [notifyAux] at hp
  | cons o rest ih =>
    intro n p hp
    rcases List.mem_append.mp hp with hp | hp
    · obtain ⟨c, _, rfl⟩ := List.mem_map.mp hp
      exact Nat.le_refl n
    · exact Nat.le_trans (Nat.le_succ n) (ih (n + 1) p hp)

theorem notifyAux_filter_lt (s : TrackerState) :
    ∀ obs n j, j < n → (notifyAux s n obs).filter (fun p => p.1 == j) = [] := by
  intro obs
  induction obs with
  | nil => intro n j _; rfl
  | cons o rest ih =>
    intro n j hj
    show ((emit n o s ++ notifyAux s (n + 1) rest).filter (fun p => p.1 == j)) = []
    rw [List.filter_append, emit_filter, if_neg (by omega), ih (n + 1) j (by omega)]
    rfl

theorem notifyAux_filter_get (s : TrackerState) :
    ∀ obs n i o, obs[i]? = some o →
      (notifyAux s n obs).filter (fun p => p.1 == n + i) = emit (n + i) o s := by
  intro obs
  induction obs with
  | nil => intro n i o h; simp at h
  | cons o' rest ih =>
    intro n i o h
    cases i with
    | zero =>
      rw [List.getElem?_cons_zero, Option.some.injEq] at h
      subst h
      show ((emit n o' s ++ notifyAux s (n + 1) rest).filter (fun p => p.1 == n + 0)) = _
      rw [List.filter_append, emit_filter, if_pos (by omega),
        notifyAux_filter_lt s rest (n + 1) (n + 0) (by omega)]
      simp
    | succ i' =>
      rw [List.getElem?_cons_succ] at h
      show ((emit n o' s ++ notifyAux s (n + 1) rest).filter
        (fun p => p.1 == n + (i' + 1))) = _
      rw [List.filter_append, emit_filter, if_neg (by omega)]
      have := ih (n + 1) i' o h
      rw [show n + 1 + i' = n + (i' + 1) by omega] at this
      rw [this]
      rfl

theorem notifyAux_pairwise (s : TrackerState) :
    ∀ obs n, ((notifyAux s n obs).map Prod.fst).Pairwise (· ≤ ·) := by
  intro obs
  induction obs with
  | nil => intro n; simp [notifyAux]
  | cons o rest ih =>
    intro n
    show (List.map Prod.fst (emit n o s ++ notifyAux s (n + 1) rest)).Pairwise (· ≤ ·)
    rw [List.map_append, List.pairwise_append]
    refine ⟨?_, ih (n + 1), ?_⟩
    · have : List.map Prod.fst (emit n o s) =
          List.replicate (presentCalls o s).length n := by
        simp [emit, Function.comp_def, List.map_const']
      rw [this]
      exact List.pairwise_replicate.mpr (Or.inr (Nat.le_refl n))
    · intro a ha b hb
      obtain ⟨p, hp, rfl⟩ := List.mem_map.mp ha
      obtain ⟨q, hq, rfl⟩ := List.mem_map.mp hb
      obtain ⟨c, _, rfl⟩ := List.mem_map.mp hp
      exact Nat.le_trans (Nat.le_succ n) (notifyAux_mem_ge s rest (n + 1) q hq)

/-- A normally returning `handleTouch` preserves mode, observers and the
storage config, and its notifications are those of the post-call state. -/
theorem handleTouch_ok_shape {e : TouchEvent} {now : ℝ} {s : TrackerState}
    {st : Store} {s' : TrackerState} {st' : Store} {invs : List (ℕ × Callback)}
    (h : handleTouch e now s st = .ok (s', st', invs)) :
    s'.mode = s.mode ∧ s'.observers = s.observers ∧
    s'.storageConfig = s.storageConfig ∧ invs = notifyObservers s' := by
  simp only [handleTouch] at h
  cases hsl : saveTouchLog s.storageConfig ⟨e.clientX, e.clientY, now⟩ st with
  | error err => simp [hsl] at h
  | ok st1 =>
    cases hlast : s.lastTouchPosition with
    | some last =>
      simp only [hsl, hlast, Except.ok.injEq, Prod.mk.injEq] at h
      obtain ⟨h1, _, h3⟩ := h
      subst h1
      subst h3
      exact ⟨rfl, rfl, rfl, rfl⟩
    | none =>
      simp only [hsl, hlast, Except.ok.injEq, Prod.mk.injEq] at h
      obtain ⟨h1, _, h3⟩ := h
      subst h1
      subst h3
      exact ⟨rfl, rfl, rfl, rfl⟩

/-! ## The state invariant -/

/-- The inductive invariant of the in-memory state: one line per point
after the first, total equal to the sum of line distances, and a last
position exactly when some point was recorded. -/
def Inv (s : TrackerState) : Prop :=
  s.lines.length = s.points.length - 1 ∧
  s.totalDistance = some ((s.lines.map Line.distance).sum) ∧
  (s.lastTouchPosition = none ↔ s.points = [])

theorem inv_fresh (mode : Mode) (dpi : ℝ) (obs : List Observer)
    (sc : StorageConfig) : Inv (freshState mode dpi obs sc) := by
  simp [Inv, freshState]

theorem inv_handleTouch {e : TouchEvent} {now : ℝ} {s : TrackerState}
    {st : Store} {s' : TrackerState} {st' : Store} {invs : List (ℕ × Callback)}
    (hinv : Inv s) (h : handleTouch e now s st = .ok (s', st', invs)) : Inv s' := by
  obtain ⟨h1, h2, h3⟩ := hinv
  simp only [handleTouch] at h
  cases hsl : saveTouchLog s.storageConfig ⟨e.clientX, e.clientY, now⟩ st with
  | error err => simp [hsl] at h
  | ok st1 =>
    cases hlast : s.lastTouchPosition with
    | some last =>
      simp only [hsl, hlast, Except.ok.injEq, Prod.mk.injEq] at h
      obtain ⟨hs, _, _⟩ := h
      subst hs
      have hpts : s.points ≠ [] := by
        intro hnil
        have := h3.mpr hnil
        rw [hlast] at this
        cases this
      have hlen : s.points.length ≠ 0 := by
        intro h0
        exact hpts (List.eq_nil_of_length_eq_zero h0)
      refine ⟨?_, ?_, ?_⟩
      · simp only [List.length_append, List.length_cons, List.length_nil]
        omega
      · simp [h2, List.map_append, List.sum_append]
      · simp
    | none =>
      simp only [hsl, hlast, Except.ok.injEq, Prod.mk.injEq] at h
      obtain ⟨hs, _, _⟩ := h
      subst hs
      have hpts : s.points = [] := h3.mp hlast
      refine ⟨?_, h2, by simp⟩
      simp [hpts]
      simpa [hpts] using h1

theorem inv_reset (s : TrackerState) (st : Store) : Inv (reset s st).1 := by
  simp [Inv, reset]

theorem inv_step (s : TrackerState) (st : Store) (op : Op) (hinv : Inv s) :
    Inv (step s st op).1 := by
  cases op with
  | touch e now =>
    show Inv (match handleTouch e now s st with
      | .ok (s', st', _) => (s', st')
      | .error _ => (s, st)).1
    cases hma : handleTouch e now s st with
    | ok r =>
      obtain ⟨s', st', invs⟩ := r
      simp only
      exact inv_handleTouch hinv hma
    | error err => exact hinv
  | reset => exact inv_reset s st

theorem inv_run : ∀ (ops : List Op) (s : TrackerState) (st : Store),
    Inv s → Inv (run ops (s, st)).1 := by
  intro ops
  induction ops with
  | nil => intro s st h; exact h
  | cons op rest ih =>
    intro s st h
    show Inv (run rest (step s st op)).1
    have := ih (step s st op).1 (step s st op).2 (inv_step s st op h)
    exact this

/-! ## Storage lemmas -/

theorem getItem_setItem_self (st : Store) (k : String) (v : StoreVal) :
    getItem (setItem st k v) k = some v := by
  simp [setItem, getItem]

theorem getItem_filter_ne_self (k : String) :
    ∀ st : Store, getItem (List.filter (fun p => p.1 ≠ k) st) k = none := by
  intro st
  induction st with
  | nil => rfl
  | cons p rest ih =>
    simp only [ne_eq, decide_not] at ih
    obtain ⟨k', v⟩ := p
    by_cases hk : k' = k
    · subst hk
      simp [List.filter_cons, ih]
    · simp [List.filter_cons, hk, getItem, ih]

theorem getItem_removeItem_self (st : Store) (k : String) :
    getItem (removeItem st k) k = none :=
  getItem_filter_ne_self k st

theorem getItem_filter_ne (k k' : String) (hk : k ≠ k') :
    ∀ st : Store, getItem (List.filter (fun p => p.1 ≠ k') st) k = getItem st k := by
  intro st
  induction st with
  | nil => rfl
  | cons p rest ih =>
    simp only [ne_eq, decide_not] at ih
    obtain ⟨k'', v⟩ := p
    by_cases h2 : k'' = k'
    · subst h2
      have hne : k'' ≠ k := fun h => hk h.symm
      simp [List.filter_cons, getItem, hne, ih]
    · simp [List.filter_cons, h2, getItem, ih]

theorem getItem_setItem_ne (st : Store) (k k' : String) (v : StoreVal)
    (hk : k ≠ k') : getItem (setItem st k' v) k = getItem st k := by
  show getItem ((k', v) :: _) k = getItem st k
  simp only [getItem, if_neg (fun h : k' = k => hk h.symm)]
  exact getItem_filter_ne k k' hk st

theorem getItem_removeItem_ne (st : Store) (k k' : String) (hk : k ≠ k') :
    getItem (removeItem st k') k = getItem st k :=
  getItem_filter_ne k k' hk st

/-! ## Claim C1 -/

/-- C1: for every sequence of `handleTouch` and `reset` calls starting
from a fresh tracker state (the class-field initial values), the state
satisfies `lines.length == max(points.length - 1, 0)` and
`totalDistance` equals the sum of the recorded line distances. A call
that throws while reading a malformed persisted log mutates nothing
and so preserves the invariant. -/
theorem c1_tracker_invariant (ops : List Op) (mode : Mode) (dpi : ℝ)
    (obs : List Observer) (sc : StorageConfig) (st : Store) :
    (((run ops (freshState mode dpi obs sc, st)).1.lines.length : ℤ) =
      max (((run ops (freshState mode dpi obs sc, st)).1.points.length : ℤ) - 1) 0) ∧
    (run ops (freshState mode dpi obs sc, st)).1.totalDistance =
      some (((run ops (freshState mode dpi obs sc, st)).1.lines.map Line.distance).sum) := by
  obtain ⟨h1, h2, _⟩ := inv_run ops (freshState mode dpi obs sc) st
    (inv_fresh mode dpi obs sc)
  refine ⟨?_, h2⟩
  omega

/-! ## Claim C2 -/

/-- C2 counterexample: a non-empty unparsable stored total does not
leave `totalDistance` at 0 (it becomes `NaN`, modelled `none`), and a
non-empty malformed stored log makes `getTouchLog` surface an error
(`JSON.parse` throws) instead of returning the empty sequence. -/
theorem c2_counterexample :
    loadTotalDistance ⟨"k", "lg"⟩ [("k", StoreVal.garbage)] (some 0) ≠ some 0 ∧
    getTouchLog ⟨"k", "lg"⟩ [("lg", StoreVal.garbage)] = .error () := by
  constructor
  · show loadTotalDistance _ _ _ ≠ some 0
    simp [loadTotalDistance, getItem, parseFloat]
  · rfl

/-- C2 (amended): a storage read of the total that yields an absent or
empty value leaves `totalDistance` unchanged (0 on a fresh tracker),
and an absent or empty log value makes `getTouchLog` return the empty
sequence; but a non-empty unparsable total value sets `totalDistance`
to `NaN`, and a non-empty malformed log value surfaces as a thrown
error from `getTouchLog`. -/
theorem c2_storage_read_defaults (sc : StorageConfig) (st : Store) (cur : Option ℝ) :
    (truthy (getItem st sc.storageKey) = false →
      loadTotalDistance sc st cur = cur) ∧
    (truthy (getItem st sc.touchLogKey) = false →
      getTouchLog sc st = .ok []) ∧
    (sc.storageKey ≠ "" → getItem st sc.storageKey = some .garbage →
      loadTotalDistance sc st cur = none) ∧
    (sc.touchLogKey ≠ "" → getItem st sc.touchLogKey = some .garbage →
      getTouchLog sc st = .error ()) := by
  refine ⟨?_, ?_, ?_, ?_⟩
  · intro h
    unfold loadTotalDistance
    split
    · rfl
    · cases hgi : getItem st sc.storageKey with
      | none => rfl
      | some v =>
        cases v <;> simp_all [truthy]
  · intro h
    unfold getTouchLog
    split
    · rfl
    · cases hgi : getItem st sc.touchLogKey with
      | none => rfl
      | some v =>
        cases v <;> simp_all [truthy]
  · intro hk h
    unfold loadTotalDistance
    rw [if_neg hk, h]
    rfl
  · intro hk h
    unfold getTouchLog
    rw [if_neg hk, h]
    rfl

/-- Witness for C2 (amended) at concrete storage states. -/
theorem c2_witness :
    loadTotalDistance ⟨"k", "lg"⟩ [] (some 5) = some 5 ∧
    getTouchLog ⟨"k", "lg"⟩ [] = .ok [] ∧
    loadTotalDistance ⟨"k", "lg"⟩ [("k", StoreVal.garbage)] (some 5) = none ∧
    getTouchLog ⟨"k", "lg"⟩ [("lg", StoreVal.garbage)] = .error () :=
  ⟨(c2_storage_read_defaults ⟨"k", "lg"⟩ [] (some 5)).1 rfl,
   (c2_storage_read_defaults ⟨"k", "lg"⟩ [] (some 5)).2.1 rfl,
   (c2_storage_read_defaults ⟨"k", "lg"⟩ [("k", StoreVal.garbage)] (some 5)).2.2.1
     (by decide) rfl,
   (c2_storage_read_defaults ⟨"k", "lg"⟩ [("lg", StoreVal.garbage)] (some 5)).2.2.2
     (by decide) rfl⟩

/-! ## Claim C3 -/

/-- C3: on any tracker state whose two storage keys are non-empty and
distinct (as every construction that does not alias them produces),
`reset()` clears the last position, total, points and lines, persists
the zeroed total, removes the persisted log entry (so `getTouchLog`
then returns the empty sequence), and emits exactly the notifications
of the post-reset state. -/
theorem c3_reset_spec (s : TrackerState) (st : Store)
    (hk : s.storageConfig.storageKey ≠ "")
    (hl : s.storageConfig.touchLogKey ≠ "")
    (hne : s.storageConfig.storageKey ≠ s.storageConfig.touchLogKey) :
    (reset s st).1.lastTouchPosition = none ∧
    (reset s st).1.totalDistance = some 0 ∧
    (reset s st).1.points = [] ∧
    (reset s st).1.lines = [] ∧
    getItem (reset s st).2.1 s.storageConfig.storageKey =
      some (.numStr (some 0)) ∧
    getItem (reset s st).2.1 s.storageConfig.touchLogKey = none ∧
    getTouchLog s.storageConfig (reset s st).2.1 = .ok [] ∧
    (reset s st).2.2 = notifyObservers (reset s st).1 := by
  refine ⟨rfl, rfl, rfl, rfl, ?_, ?_, ?_, rfl⟩
  · show getItem (if s.storageConfig.touchLogKey = "" then _
      else removeItem (saveTotalDistance s.storageConfig (some 0) st)
        s.storageConfig.touchLogKey) s.storageConfig.storageKey = _
    rw [if_neg hl, getItem_removeItem_ne _ _ _ hne]
    unfold saveTotalDistance
    rw [if_neg hk, getItem_setItem_self]
  · show getItem (if s.storageConfig.touchLogKey = "" then _
      else removeItem (saveTotalDistance s.storageConfig (some 0) st)
        s.storageConfig.touchLogKey) s.storageConfig.touchLogKey = _
    rw [if_neg hl, getItem_removeItem_self]
  · show getTouchLog s.storageConfig (if s.storageConfig.touchLogKey = "" then _
      else removeItem (saveTotalDistance s.storageConfig (some 0) st)
        s.storageConfig.touchLogKey) = _
    rw [if_neg hl]
    unfold getTouchLog
    rw [if_neg hl, getItem_removeItem_self]

/-- Witness for C3 at a concrete state and store. -/
theorem c3_witness :
    (reset (freshState .production 96 [] ⟨"a", "b"⟩) []).1.lastTouchPosition = none ∧
    (reset (freshState .production 96 [] ⟨"a", "b"⟩) []).1.totalDistance = some 0 ∧
    (reset (freshState .production 96 [] ⟨"a", "b"⟩) []).1.points = [] ∧
    (reset (freshState .production 96 [] ⟨"a", "b"⟩) []).1.lines = [] ∧
    getItem (reset (freshState .production 96 [] ⟨"a", "b"⟩) []).2.1 "a" =
      some (.numStr (some 0)) ∧
    getItem (reset (freshState .production 96 [] ⟨"a", "b"⟩) []).2.1 "b" = none ∧
    getTouchLog ⟨"a", "b"⟩ (reset (freshState .production 96 [] ⟨"a", "b"⟩) []).2.1 =
      .ok [] ∧
    (reset (freshState .production 96 [] ⟨"a", "b"⟩) []).2.2 =
      notifyObservers (reset (freshState .production 96 [] ⟨"a", "b"⟩) []).1 :=
  c3_reset_spec (freshState .production 96 [] ⟨"a", "b"⟩) []
    (by decide) (by decide) (by decide)

/-! ## Claim C5 -/

/-- C5: on a tracker freshly constructed over an empty store, a single
`handleTouch` call (no prior position) records one point, no line, and
leaves the total distance at 0. -/
theorem c5_first_touch (e : TouchEvent) (now : ℝ) :
    ∃ s' st' invs,
      handleTouch e now (construct ⟨none, none, none, none⟩ []) [] =
        .ok (s', st', invs) ∧
      (getPoints s').length = 1 ∧ getLines s' = [] ∧
      getTotalDistance s' = some 0 := by
  refine ⟨_, _, _, rfl, rfl, rfl, rfl⟩

/-! ## Claim C4 -/

/-- C4 counterexample: the distance accumulated by touches at (0,0)
then (100,100) at dpi 96 is below 37.45 mm, so it is not approximately
37.48 mm as the specification states (the true value is ≈ 37.42 mm). -/
theorem c4_counterexample :
    Real.sqrt ((100 : ℝ) ^ 2 + 100 ^ 2) * 25.4 / 96 < 37.45 := by
  have h20 : ((100 : ℝ) ^ 2 + 100 ^ 2) = 20000 := by norm_num
  rw [h20]
  have h1 : Real.sqrt (20000 : ℝ) < 141.43 :=
    (Real.sqrt_lt' (by norm_num)).mpr (by norm_num)
  have h0 : (0 : ℝ) ≤ Real.sqrt 20000 := Real.sqrt_nonneg _
  nlinarith

/-- C4 (amended): for a fresh tracker with dpi 96 over an empty store,
touches at (0,0) then (100,100) yield one line and a total distance of
exactly `sqrt(100^2 + 100^2) * 25.4 / 96` millimeters, which lies
between 37.41 and 37.43 mm (approximately 37.42 mm, not the 37.48 mm
the specification states). -/
theorem c4_two_touch_distance (t1 t2 : ℝ) :
    ∃ s1 st1 i1 s2 st2 i2,
      handleTouch ⟨0, 0⟩ t1 (construct ⟨none, none, none, none⟩ []) [] =
        .ok (s1, st1, i1) ∧
      handleTouch ⟨100, 100⟩ t2 s1 st1 = .ok (s2, st2, i2) ∧
      (getLines s2).length = 1 ∧
      getTotalDistance s2 = some (Real.sqrt ((100 : ℝ) ^ 2 + 100 ^ 2) * 25.4 / 96) ∧
      37.41 < Real.sqrt ((100 : ℝ) ^ 2 + 100 ^ 2) * 25.4 / 96 ∧
      Real.sqrt ((100 : ℝ) ^ 2 + 100 ^ 2) * 25.4 / 96 < 37.43 := by
  refine ⟨_, _, _, _, _, _, rfl, rfl, rfl, ?_, ?_, ?_⟩
  · show some (0 + convertToMM 96 (calculateDistance 0 0 100 100)) = _
    unfold convertToMM calculateDistance
    rw [zero_add]
    norm_num
    ring
  · have h2 : (141.40 : ℝ) < Real.sqrt 20000 :=
      (Real.lt_sqrt (by norm_num)).mpr (by norm_num)
    have h20 : ((100 : ℝ) ^ 2 + 100 ^ 2) = 20000 := by norm_num
    rw [h20]
    nlinarith
  · have h1 : Real.sqrt (20000 : ℝ) < 141.43 :=
      (Real.sqrt_lt' (by norm_num)).mpr (by norm_num)
    have h0 : (0 : ℝ) ≤ Real.sqrt 20000 := Real.sqrt_nonneg _
    have h20 : ((100 : ℝ) ^ 2 + 100 ^ 2) = 20000 := by norm_num
    rw [h20]
    nlinarith

/-! ## Claim C6 -/

/-- C6 counterexample: in visualization mode with a registered observer
exposing all three callbacks, a `handleTouch` call over a store whose
log entry is malformed throws from `JSON.parse` and invokes no
callback at all. -/
theorem c6_counterexample :
    handleTouch ⟨0, 0⟩ 0
      (freshState .visualization 96 [⟨true, true, true⟩] ⟨"k", "lg"⟩)
      [("lg", StoreVal.garbage)] = .error () := rfl

/-- C6 (amended): for every `handleTouch` call that returns normally,
in visualization mode each callback type present on each registered
observer is invoked exactly once per observer, grouped in registration
order; in production mode no callback is invoked regardless of
registration. -/
theorem c6_handleTouch_notifications {e : TouchEvent} {now : ℝ}
    {s : TrackerState} {st : Store} {s' : TrackerState} {st' : Store}
    {invs : List (ℕ × Callback)}
    (h : handleTouch e now s st = .ok (s', st', invs)) :
    (s.mode = .production → invs = []) ∧
    (s.mode = .visualization →
      (invs.map Prod.fst).Pairwise (· ≤ ·) ∧
      ∀ i o, s.observers[i]? = some o →
        (invs.filter (fun p => p.1 == i)).map (fun p => kindOf p.2) = kindsOf o) := by
  obtain ⟨hm, ho, _, hi⟩ := handleTouch_ok_shape h
  subst hi
  constructor
  · intro hp
    simp [notifyObservers, hm, hp]
  · intro hv
    constructor
    · simp only [notifyObservers, hm, hv, ho]
      exact notifyAux_pairwise s' s.observers 0
    · intro i o hio
      simp only [notifyObservers, hm, hv, ho]
      have hf := notifyAux_filter_get s' s.observers 0 i o hio
      rw [Nat.zero_add] at hf
      rw [hf, map_kindOf_emit]

/-- Witness for C6 (amended): a production-mode call invokes nothing. -/
theorem c6_witness :
    ∃ s' st',
      handleTouch ⟨0, 0⟩ 0
        (freshState .production 96 [⟨true, true, true⟩] ⟨"k", "lg"⟩) [] =
        .ok (s', st', []) := by
  obtain ⟨s', st', invs, h⟩ :
      ∃ s' st' invs,
        handleTouch ⟨0, 0⟩ 0
          (freshState .production 96 [⟨true, true, true⟩] ⟨"k", "lg"⟩) [] =
          .ok (s', st', invs) := ⟨_, _, _, rfl⟩
  have hnil := (c6_handleTouch_notifications h).1 rfl
  rw [hnil] at h
  exact ⟨s', st', h⟩

/-! ## Claim C7 -/

/-- C7 counterexample: when `totalDistance-01` exists with the empty
string as value, the generated key is `totalDistance-01` itself — it
collides with the pre-existing key instead of moving to
`totalDistance-02`. -/
theorem c7_counterexample :
    generateDefaultStorageKey [("totalDistance-01", StoreVal.emptyStr)] =
      "totalDistance-01" ∧
    (getItem [("totalDistance-01", StoreVal.emptyStr)] "totalDistance-01").isSome
      = true :=
  ⟨rfl, rfl⟩

/-- C7 (amended): key generation probes `totalDistance-01`,
`totalDistance-02`, … sequentially and selects the first index whose
key is absent or holds the empty string (JS truthiness); every earlier
index holds a non-empty value, so the chosen key never collides with a
pre-existing key holding a non-empty value (it may coincide with an
existing empty-valued key). -/
theorem c7_default_key_first_unused (st : Store) :
    generateDefaultStorageKey st = keyForIndex (probe st (st.length + 1) 1) ∧
    truthy (getItem st (generateDefaultStorageKey st)) = false ∧
    (∀ j, 1 ≤ j → j < probe st (st.length + 1) 1 →
      truthy (getItem st (keyForIndex j)) = true) :=
  ⟨rfl, gen_key_not_truthy st,
    fun j h1 h2 => probe_min st (st.length + 1) 1 j h1 h2⟩

/-- Witness for C7 (amended): with `totalDistance-01` truthy, the
probe skips index 1 (index 1 is reported truthy) and the chosen key is
untruthy. -/
theorem c7_witness :
    truthy (getItem [("totalDistance-01", StoreVal.garbage)]
      (generateDefaultStorageKey [("totalDistance-01", StoreVal.garbage)])) =
      false ∧
    truthy (getItem [("totalDistance-01", StoreVal.garbage)] (keyForIndex 1)) =
      true :=
  ⟨(c7_default_key_first_unused [("totalDistance-01", StoreVal.garbage)]).2.1,
   (c7_default_key_first_unused [("totalDistance-01", StoreVal.garbage)]).2.2 1
     (Nat.le_refl 1) (by decide)⟩

/-! ## Claim C8 -/

/-- C8: persisting the total with `saveTotalDistance` and constructing
a new tracker with the same storage key restores exactly the saved
total (the stringified number parses back to itself). -/
theorem c8_total_roundtrip (s : TrackerState) (st : Store) (m : Option Mode)
    (d : Option ℝ) (lg : Option String)
    (hk : s.storageConfig.storageKey ≠ "") :
    (construct ⟨m, d, some s.storageConfig.storageKey, lg⟩
        (saveTotalDistance s.storageConfig s.totalDistance st)).totalDistance =
      s.totalDistance := by
  simp only [construct, saveTotalDistance, if_neg hk, getItem_setItem_self]
  rfl

/-- Witness for C8 with a concrete state, store and key. -/
theorem c8_witness :
    (construct ⟨none, none, some "k", none⟩
        (saveTotalDistance ⟨"k", "lg"⟩ (some 0) [])).totalDistance = some 0 :=
  c8_total_roundtrip (freshState .production 96 [] ⟨"k", "lg"⟩) [] none none none
    (by decide)

/-! ## Claim C9 -/

/-- C9: when a storage key is supplied but no touch-log key is, the
tracker's touch-log key is the freshly generated default key (from
probing the store) suffixed with `-touch-log` — not the supplied
storage key suffixed. -/
theorem c9_touch_log_key_from_default (st : Store) (m : Option Mode)
    (d : Option ℝ) (k : String) (hk : k ≠ "") :
    (construct ⟨m, d, some k, none⟩ st).storageConfig.touchLogKey =
      generateDefaultStorageKey st ++ "-touch-log" ∧
    (construct ⟨m, d, some k, none⟩ st).storageConfig.storageKey = k ∧
    (k ≠ generateDefaultStorageKey st →
      (construct ⟨m, d, some k, none⟩ st).storageConfig.touchLogKey ≠
        k ++ "-touch-log") := by
  refine ⟨rfl, if_neg hk, fun hne heq => ?_⟩
  have hd : (generateDefaultStorageKey st ++ "-touch-log").data =
      (k ++ "-touch-log").data := congrArg String.data heq
  rw [data_append, data_append] at hd
  exact hne (String.ext (List.append_cancel_right hd)).symm

/-- Witness for C9: over a store where `totalDistance-01` is occupied,
a tracker constructed with storage key `mykey` and no log key derives
its log key from the generated default `totalDistance-02`. -/
theorem c9_witness :
    (construct ⟨none, none, some "mykey", none⟩
        [("totalDistance-01", StoreVal.garbage)]).storageConfig.touchLogKey =
      generateDefaultStorageKey [("totalDistance-01", StoreVal.garbage)] ++
        "-touch-log" :=
  (c9_touch_log_key_from_default [("totalDistance-01", StoreVal.garbage)]
    none none "mykey" (by decide)).1

/-! ## Claim C10 -/

/-- C10: for every (finite) storage state, the sequential key-probing
loop terminates with a key whose stored value is absent or falsy; a
key holding the empty string is treated as unused (the probe stops on
it). -/
theorem c10_probing_terminates (st : Store) :
    truthy (getItem st (generateDefaultStorageKey st)) = false ∧
    (getItem st (keyForIndex 1) = some StoreVal.emptyStr →
      generateDefaultStorageKey st = keyForIndex 1) := by
  refine ⟨gen_key_not_truthy st, fun h => ?_⟩
  have ht : truthy (getItem st (keyForIndex 1)) = false := by rw [h]; rfl
  unfold generateDefaultStorageKey
  congr 1
  simp [probe, ht]

/-- Witness for C10: a store whose first probed key holds the empty
string; the generated key is that same key. -/
theorem c10_witness :
    generateDefaultStorageKey [("totalDistance-01", StoreVal.emptyStr)] =
      keyForIndex 1 :=
  (c10_probing_terminates [("totalDistance-01", StoreVal.emptyStr)]).2 rfl

end TouchTracker
